import Mathlib

/-!
Shallow embedding of src/weather/weather.py.

JSON values decoded from HTTP responses are modelled by the inductive type
Json below; JSON numbers are modelled as integers (no claim depends on
fractional values).  Python runtime failures raised by the code are modelled
by the type PyErr, and every translated function returns in the
Except PyErr monad, so that a raised error is an explicit value.

Network effects are modelled by passing each function the decoded result of
its outbound fetch(es) as an argument: an Option Json argument stands for
the value of a make_nws_request call (none when the helper returned None),
and get_forecast additionally returns a Bool recording whether its second
fetch was issued.
-/

inductive Json where
  | null
  | bool (b : Bool)
  | num (n : Int)
  | str (s : String)
  | arr (xs : List Json)
  | obj (kvs : List (String × Json))

inductive PyErr where
  | keyError (k : String)
  | typeError
  | attributeError
  | exception (name : String)
deriving DecidableEq, Repr

/-- Association-list lookup used to model Python dict access (decoded JSON
objects have unique keys, so first-match lookup is adequate). -/
def lookupKey : List (String × Json) → String → Option Json
  | [], _ => none
  | (k, v) :: rest, key => if k = key then some v else lookupKey rest key

/-- Python truthiness (bool(x)) for decoded JSON values. -/
def truthy : Json → Bool
  | Json.null => false
  | Json.bool b => b
  | Json.num n => n != 0
  | Json.str s => s != ""
  | Json.arr xs => !xs.isEmpty
  | Json.obj kvs => !kvs.isEmpty

/-- Bool test for whether the char list a occurs as a prefix of b. -/
def listStartsWith : List Char → List Char → Bool
  | [], _ => true
  | _ :: _, [] => false
  | a :: as, b :: bs => a == b && listStartsWith as bs

/-- Bool test for whether the char list a occurs contiguously inside b,
modelling the Python substring test s1 in s2. -/
def listInfixOf (needle : List Char) : List Char → Bool
  | [] => listStartsWith needle []
  | b :: bs => listStartsWith needle (b :: bs) || listInfixOf needle bs

/-- Python membership test key in d for a string key against a decoded JSON
value: key lookup on dicts, element equality on lists, substring test on
strings, TypeError otherwise. -/
def pyIn (key : String) : Json → Except PyErr Bool
  | Json.obj kvs => Except.ok (lookupKey kvs key).isSome
  | Json.arr xs =>
      Except.ok (xs.any (fun x => match x with | Json.str s => s == key | _ => false))
  | Json.str s => Except.ok (listInfixOf key.data s.data)
  | _ => Except.error PyErr.typeError

/-- Python subscript d[key] with a string key: dict lookup raising KeyError
when the key is absent, TypeError on every non-dict value. -/
def getItem : Json → String → Except PyErr Json
  | Json.obj kvs, key =>
      match lookupKey kvs key with
      | some v => Except.ok v
      | none => Except.error (PyErr.keyError key)
  | _, _ => Except.error PyErr.typeError

/-- Python d.get(key, default): defaulting lookup on dicts, AttributeError
on every non-dict value. -/
def dictGet : Json → String → Json → Except PyErr Json
  | Json.obj kvs, key, dflt => Except.ok ((lookupKey kvs key).getD dflt)
  | _, _, _ => Except.error PyErr.attributeError

/-- Python iteration over a decoded JSON value: elements of a list, the
characters of a string as one-character strings, the keys of a dict,
TypeError otherwise. -/
def pyIter : Json → Except PyErr (List Json)
  | Json.arr xs => Except.ok xs
  | Json.str s => Except.ok (s.data.map (fun c => Json.str (String.singleton c)))
  | Json.obj kvs => Except.ok (kvs.map (fun kv => Json.str kv.fst))
  | _ => Except.error PyErr.typeError

/-- Python slice x[:3]: list and string prefixes of length at most 3,
TypeError on every other value. -/
def pySlice3 : Json → Except PyErr Json
  | Json.arr xs => Except.ok (Json.arr (xs.take 3))
  | Json.str s => Except.ok (Json.str (s.take 3))
  | _ => Except.error PyErr.typeError

/-- Python str.join modelled on lists of strings. -/
def pyJoin (sep : String) : List String → String
  | [] => ""
  | x :: xs => xs.foldl (fun acc y => acc ++ sep ++ y) x

/-- The single-quote character used by the Python repr of strings. -/
def squote : String := String.singleton (Char.ofNat 39)

mutual

/-- Python repr of a decoded JSON value (string escaping is modelled only
for strings containing no characters that repr would escape, which is the
granularity the claims need). -/
def pyRepr : Json → String
  | Json.null => "None"
  | Json.bool true => "True"
  | Json.bool false => "False"
  | Json.num n => toString n
  | Json.str s => squote ++ s ++ squote
  | Json.arr xs => "[" ++ pyReprElems xs ++ "]"
  | Json.obj kvs => "\x7b" ++ pyReprPairs kvs ++ "\x7d"

/-- Comma-separated reprs of the elements of a decoded JSON list. -/
def pyReprElems : List Json → String
  | [] => ""
  | [x] => pyRepr x
  | x :: xs => pyRepr x ++ ", " ++ pyReprElems xs

/-- Comma-separated key: value reprs of the entries of a decoded JSON dict. -/
def pyReprPairs : List (String × Json) → String
  | [] => ""
  | [kv] => squote ++ kv.fst ++ squote ++ ": " ++ pyRepr kv.snd
  | kv :: kvs => squote ++ kv.fst ++ squote ++ ": " ++ pyRepr kv.snd ++ ", " ++ pyReprPairs kvs

end

/-- Python str() of a decoded JSON value: the string itself for strings,
the repr for every other value, as f-string interpolation and the final
str(data) of get_indian_forecast use it. -/
def pyStr : Json → String
  | Json.str s => s
  | j => pyRepr j

/-- Error-propagating map over a list, modelling a Python loop or list
comprehension that formats each element in order and raises at the first
failing element. -/
def mapME (f : Json → Except PyErr String) : List Json → Except PyErr (List String)
  | [] => Except.ok []
  | x :: xs =>
      match f x with
      | Except.error e => Except.error e
      | Except.ok y =>
          match mapME f xs with
          | Except.error e => Except.error e
          | Except.ok ys => Except.ok (y :: ys)

/-- Translation of make_nws_request: the argument is the combined outcome of
the HTTP GET, the status check, and the JSON decode of the body (an error
value for a network failure, a timeout, a non-2xx status, or a malformed
body).  The try/except Exception block catches every error and returns
None, so the codomain is Option Json and carries no error information. -/
def make_nws_request (outcome : Except PyErr Json) : Option Json :=
  match outcome with
  | Except.error _ => none
  | Except.ok j => some j

/-- The multi-line f-string template of format_alert, with the exact
whitespace of the source and one hole per interpolated field. -/
def alertTemplate (e a s d i : String) : String :=
  "\n        Event: " ++
    (e ++ ("\n        Area: " ++
      (a ++ ("\n        Severity: " ++
        (s ++ ("\n        Description: " ++
          (d ++ ("\n        Instructions: " ++
            (i ++ "\n        ")))))))))

/-- Translation of format_alert: subscript the feature with "properties"
(which can raise), then render the template with props.get fallbacks, in
source order of the interpolations. -/
def format_alert (feature : Json) : Except PyErr String :=
  match getItem feature "properties" with
  | Except.error e => Except.error e
  | Except.ok props =>
      match dictGet props "event" (Json.str "Unknown") with
      | Except.error e => Except.error e
      | Except.ok ev =>
          match dictGet props "areaDesc" (Json.str "Unknown") with
          | Except.error e => Except.error e
          | Except.ok ar =>
              match dictGet props "severity" (Json.str "Unknown") with
              | Except.error e => Except.error e
              | Except.ok sv =>
                  match dictGet props "description" (Json.str "No description available") with
                  | Except.error e => Except.error e
                  | Except.ok de =>
                      match dictGet props "instruction" (Json.str "No specific instructions provided") with
                      | Except.error e => Except.error e
                      | Except.ok ins =>
                          Except.ok (alertTemplate (pyStr ev) (pyStr ar) (pyStr sv) (pyStr de) (pyStr ins))

/-- Translation of get_weather_alerts: the state argument flows only into
the fetched URL; data is the make_nws_request result for that URL. -/
def get_weather_alerts (state : String) (data : Option Json) : Except PyErr String :=
  let _url := "https://api.weather.gov/alerts/active/area/" ++ state
  match data with
  | none => Except.ok "No alerts found or unable to fetch alerts"
  | some d =>
      if truthy d = false then Except.ok "No alerts found or unable to fetch alerts"
      else
        match pyIn "features" d with
        | Except.error e => Except.error e
        | Except.ok false => Except.ok "No alerts found or unable to fetch alerts"
        | Except.ok true =>
            match getItem d "features" with
            | Except.error e => Except.error e
            | Except.ok feats =>
                if truthy feats = false then
                  Except.ok "No active weather alerts for the specified state."
                else
                  match pyIter feats with
                  | Except.error e => Except.error e
                  | Except.ok items =>
                      match mapME format_alert items with
                      | Except.error e => Except.error e
                      | Except.ok alerts => Except.ok (pyJoin "\n----\n" alerts)

/-- The multi-line f-string template built for each forecast period, with
the exact whitespace and the exact two-character degree sequence of the
source file. -/
def periodTemplate (n t tu ws wd df : String) : String :=
  "\n            " ++
    (n ++ (":\n            Temperature: " ++
      (t ++ ("Â°" ++
        (tu ++ ("\n            Wind: " ++
          (ws ++ (" " ++
            (wd ++ ("\n            Forecast: " ++
              (df ++ "\n        ")))))))))))

/-- Translation of the loop body of get_forecast: subscript the period for
each of the six fields, in source order of the interpolations, and render
the template. -/
def format_period (period : Json) : Except PyErr String :=
  match getItem period "name" with
  | Except.error e => Except.error e
  | Except.ok n =>
      match getItem period "temperature" with
      | Except.error e => Except.error e
      | Except.ok t =>
          match getItem period "temperatureUnit" with
          | Except.error e => Except.error e
          | Except.ok tu =>
              match getItem period "windSpeed" with
              | Except.error e => Except.error e
              | Except.ok ws =>
                  match getItem period "windDirection" with
                  | Except.error e => Except.error e
                  | Except.ok wd =>
                      match getItem period "detailedForecast" with
                      | Except.error e => Except.error e
                      | Except.ok df =>
                          Except.ok (periodTemplate (pyStr n) (pyStr t) (pyStr tu) (pyStr ws) (pyStr wd) (pyStr df))

/-- The part of get_forecast that runs from the second make_nws_request
call onward: the argument is the result of that second fetch, and the body
is the falsiness check followed by the periods extraction, the loop over
periods[:3], and the join. -/
def forecastFromSecond (snd : Option Json) : Except PyErr String :=
  match snd with
  | none => Except.ok "Unable to fetch forecast data."
  | some fd =>
      if truthy fd = false then Except.ok "Unable to fetch forecast data."
      else
        match getItem fd "properties" with
        | Except.error e => Except.error e
        | Except.ok fprops =>
            match getItem fprops "periods" with
            | Except.error e => Except.error e
            | Except.ok periods =>
                match pySlice3 periods with
                | Except.error e => Except.error e
                | Except.ok sliced =>
                    match pyIter sliced with
                    | Except.error e => Except.error e
                    | Except.ok items =>
                        match mapME format_period items with
                        | Except.error e => Except.error e
                        | Except.ok fs => Except.ok (pyJoin "\n---\n" fs)

/-- Translation of get_forecast.  The first argument is the
make_nws_request result for the points URL; the second argument is the
make_nws_request result for the forecast URL, consulted only if that second
fetch is reached (its handling is forecastFromSecond).  The returned Bool
records whether the second fetch was issued.  Guard tests are evaluated in
source order with Python short-circuiting, so a test that raises ends the
call at that point. -/
def get_forecast (first snd : Option Json) : Except PyErr String × Bool :=
  match first with
  | none => (Except.ok "Unable to fetch forecast data.", false)
  | some d =>
      if truthy d = false then (Except.ok "Unable to fetch forecast data.", false)
      else
        match pyIn "properties" d with
        | Except.error e => (Except.error e, false)
        | Except.ok false => (Except.ok "Unable to fetch forecast data.", false)
        | Except.ok true =>
            match getItem d "properties" with
            | Except.error e => (Except.error e, false)
            | Except.ok props =>
                match pyIn "forecast" props with
                | Except.error e => (Except.error e, false)
                | Except.ok false => (Except.ok "Unable to fetch forecast data.", false)
                | Except.ok true =>
                    match getItem props "forecast" with
                    | Except.error e => (Except.error e, false)
                    | Except.ok _furl => (forecastFromSecond snd, true)

/-- Translation of get_indian_forecast: the argument is the combined
outcome of the raw client.get call and the resp.json() decode.  The body
has no try/except, so an error outcome propagates unchanged, and a
successful decode is returned through str(). -/
def get_indian_forecast (resp : Except PyErr Json) : Except PyErr String :=
  match resp with
  | Except.error e => Except.error e
  | Except.ok data => Except.ok (pyStr data)

/-- Translation of my_tool. -/
def my_tool (input_string : String) : String :=
  "This is a test tool that returns the input string: " ++ input_string

theorem strData_empty : ("" : String).data = [] := rfl

theorem strAppend_assoc (a b c : String) : a ++ b ++ c = a ++ (b ++ c) := by
  apply String.ext
  simp [String.data_append, List.append_assoc]

theorem strAppend_empty (a : String) : a ++ "" = a := by
  apply String.ext
  simp [String.data_append, strData_empty]

theorem truthy_obj_of_lookup {kvs : List (String × Json)} {key : String} {v : Json}
    (h : lookupKey kvs key = some v) : truthy (Json.obj kvs) = true := by
  cases kvs with
  | nil => simp [lookupKey] at h
  | cons kv rest => simp [truthy]

theorem foldl_append_extract (sep : String) (ys : List String) (acc : String) :
    ∃ t, ys.foldl (fun a y => a ++ sep ++ y) acc = acc ++ t := by
  induction ys generalizing acc with
  | nil => exact ⟨"", (strAppend_empty acc).symm⟩
  | cons y ys ih =>
      obtain ⟨t, ht⟩ := ih (acc ++ sep ++ y)
      refine ⟨sep ++ y ++ t, ?_⟩
      calc List.foldl (fun a z => a ++ sep ++ z) acc (y :: ys)
          = List.foldl (fun a z => a ++ sep ++ z) (acc ++ sep ++ y) ys := rfl
        _ = acc ++ sep ++ y ++ t := ht
        _ = acc ++ (sep ++ y ++ t) := by simp only [strAppend_assoc]

theorem pyJoin_cons (sep y : String) (ys : List String) :
    ∃ t, pyJoin sep (y :: ys) = y ++ t := by
  simpa [pyJoin] using foldl_append_extract sep ys y

theorem mapME_cons_ok {f : Json → Except PyErr String} {x : Json} {xs : List Json}
    {ys : List String} (h : mapME f (x :: xs) = Except.ok ys) :
    ∃ y ys2, f x = Except.ok y ∧ mapME f xs = Except.ok ys2 ∧ ys = y :: ys2 := by
  simp only [mapME] at h
  cases hfx : f x with
  | error e => rw [hfx] at h; cases h
  | ok y =>
      rw [hfx] at h
      cases hrest : mapME f xs with
      | error e => rw [hrest] at h; cases h
      | ok ys2 =>
          rw [hrest] at h
          cases h
          exact ⟨y, ys2, rfl, rfl, rfl⟩

theorem mapME_length {f : Json → Except PyErr String} {xs : List Json} {ys : List String}
    (h : mapME f xs = Except.ok ys) : ys.length = xs.length := by
  induction xs generalizing ys with
  | nil => simp only [mapME] at h; cases h; rfl
  | cons x xs ih =>
      obtain ⟨y, ys2, _, hrest, rfl⟩ := mapME_cons_ok h
      simp [ih hrest]

theorem pyIter_ne_nil {v : Json} {items : List Json} (htr : truthy v = true)
    (h : pyIter v = Except.ok items) : items ≠ [] := by
  cases v with
  | null => simp [truthy] at htr
  | bool b => simp [pyIter] at h
  | num n => simp [pyIter] at h
  | str s =>
      simp only [pyIter, Except.ok.injEq] at h
      subst h
      simp only [truthy, bne_iff_ne, ne_eq] at htr
      intro hmap
      rw [List.map_eq_nil_iff] at hmap
      exact htr (String.ext hmap)
  | arr xs =>
      simp only [pyIter, Except.ok.injEq] at h
      subst h
      simpa [truthy, List.isEmpty_iff] using htr
  | obj kvs =>
      simp only [pyIter, Except.ok.injEq] at h
      subst h
      simp only [truthy, Bool.not_eq_eq_eq_not, Bool.not_true, List.isEmpty_eq_false] at htr
      simpa using htr

theorem getItem_ok_shape {d : Json} {key : String} {v : Json}
    (h : getItem d key = Except.ok v) :
    ∃ kvs, d = Json.obj kvs ∧ lookupKey kvs key = some v := by
  cases d with
  | obj kvs =>
      refine ⟨kvs, rfl, ?_⟩
      simp only [getItem] at h
      cases hl : lookupKey kvs key with
      | none => rw [hl] at h; cases h
      | some w => rw [hl] at h; cases h; rfl
  | null => simp [getItem] at h
  | bool b => simp [getItem] at h
  | num n => simp [getItem] at h
  | str s => simp [getItem] at h
  | arr xs => simp [getItem] at h

theorem format_alert_ok_shape {f : Json} {s : String}
    (h : format_alert f = Except.ok s) : ∃ r, s = "\n        Event: " ++ r := by
  simp only [format_alert] at h
  cases hg : getItem f "properties" with
  | error e => rw [hg] at h; cases h
  | ok props =>
      rw [hg] at h
      cases props with
      | obj pkvs =>
          simp only [dictGet, alertTemplate, Except.ok.injEq] at h
          exact ⟨_, h.symm⟩
      | null => simp [dictGet] at h
      | bool b => simp [dictGet] at h
      | num n => simp [dictGet] at h
      | str s2 => simp [dictGet] at h
      | arr xs => simp [dictGet] at h

theorem nlEvent_append_ne_noActive (r : String) :
    ("\n        Event: " ++ r) ≠ "No active weather alerts for the specified state." := by
  intro h
  have h2 : ("\n        Event: " ++ r).data
      = ("No active weather alerts for the specified state." : String).data := by rw [h]
  rw [String.data_append] at h2
  have e1 : ("\n        Event: " : String).data = '\n' :: ("        Event: " : String).data := rfl
  have e2 : ("No active weather alerts for the specified state." : String).data
      = 'N' :: ("o active weather alerts for the specified state." : String).data := rfl
  rw [e1, e2, List.cons_append] at h2
  injection h2 with hc _
  exact absurd hc (by decide)

/-- Claim C7: make_nws_request returns the decoded JSON body on success and
the explicit no-result value None on every failure outcome; its codomain
carries no error (nothing is raised) and no distinction between failure
causes survives in its result. -/
theorem make_nws_request_failsoft :
    (∀ j, make_nws_request (Except.ok j) = some j) ∧
    (∀ e, make_nws_request (Except.error e) = none) ∧
    (∀ e1 e2, make_nws_request (Except.error e1) = make_nws_request (Except.error e2)) :=
  ⟨fun _ => rfl, fun _ => rfl, fun _ _ => rfl⟩

/-- Claim C8: get_indian_forecast performs no error handling: a failing
fetch or a malformed body propagates its error unchanged to the caller, and
every successful decode is returned as the textual coercion of the raw body
with no reshaping. -/
theorem get_indian_forecast_failopen :
    (∀ e, get_indian_forecast (Except.error e) = Except.error e) ∧
    (∀ j, get_indian_forecast (Except.ok j) = Except.ok (pyStr j)) :=
  ⟨fun _ => rfl, fun _ => rfl⟩

/-- Claim C2 (amended): for every alert feature whose properties entry is
present and is a record, format_alert returns the fixed template with the
documented fallback text substituted for exactly the absent fields (a
present field is rendered as the textual coercion of its value) and raises
nothing; the original claim fails for a feature without such a record,
which raises instead of falling back. -/
theorem format_alert_template_of_props (fkvs pkvs : List (String × Json))
    (h : lookupKey fkvs "properties" = some (Json.obj pkvs)) :
    format_alert (Json.obj fkvs) = Except.ok (alertTemplate
      (pyStr ((lookupKey pkvs "event").getD (Json.str "Unknown")))
      (pyStr ((lookupKey pkvs "areaDesc").getD (Json.str "Unknown")))
      (pyStr ((lookupKey pkvs "severity").getD (Json.str "Unknown")))
      (pyStr ((lookupKey pkvs "description").getD (Json.str "No description available")))
      (pyStr ((lookupKey pkvs "instruction").getD (Json.str "No specific instructions provided")))) := by
  simp [format_alert, getItem, h, dictGet]

/-- Witness for the amended claim C2 at a concrete feature carrying only an
event field. -/
theorem format_alert_template_of_props_witness :
    lookupKey [("properties", Json.obj [("event", Json.str "Flood")])] "properties"
      = some (Json.obj [("event", Json.str "Flood")]) ∧
    format_alert (Json.obj [("properties", Json.obj [("event", Json.str "Flood")])])
      = Except.ok (alertTemplate "Flood" "Unknown" "Unknown"
          "No description available" "No specific instructions provided") :=
  ⟨rfl, (format_alert_template_of_props
    [("properties", Json.obj [("event", Json.str "Flood")])]
    [("event", Json.str "Flood")] rfl).trans rfl⟩

/-- Counterexample to claim C2 as stated: a feature record without a
properties entry makes format_alert raise a KeyError rather than return the
all-fallback template. -/
theorem format_alert_missing_properties_raises :
    format_alert (Json.obj []) = Except.error (PyErr.keyError "properties") ∧
    (Except.error (PyErr.keyError "properties") : Except PyErr String) ≠
      Except.ok (alertTemplate "Unknown" "Unknown" "Unknown"
        "No description available" "No specific instructions provided") :=
  ⟨rfl, by simp⟩

/-- Claim C10: in format_alert the documented fallback text is used only
when a field key is absent: a key present but bound to JSON null renders as
the textual coercion None rather than the fallback (shown for each of the
five fields), and the feature must contain a properties key at all, its
absence raising a KeyError. -/
theorem format_alert_null_not_fallback :
    (format_alert (Json.obj [("properties", Json.obj [("event", Json.null)])]) =
      Except.ok (alertTemplate "None" "Unknown" "Unknown"
        "No description available" "No specific instructions provided")) ∧
    (format_alert (Json.obj [("properties", Json.obj [("areaDesc", Json.null)])]) =
      Except.ok (alertTemplate "Unknown" "None" "Unknown"
        "No description available" "No specific instructions provided")) ∧
    (format_alert (Json.obj [("properties", Json.obj [("severity", Json.null)])]) =
      Except.ok (alertTemplate "Unknown" "Unknown" "None"
        "No description available" "No specific instructions provided")) ∧
    (format_alert (Json.obj [("properties", Json.obj [("description", Json.null)])]) =
      Except.ok (alertTemplate "Unknown" "Unknown" "Unknown"
        "None" "No specific instructions provided")) ∧
    (format_alert (Json.obj [("properties", Json.obj [("instruction", Json.null)])]) =
      Except.ok (alertTemplate "Unknown" "Unknown" "Unknown"
        "No description available" "None")) ∧
    (∀ fkvs, lookupKey fkvs "properties" = none →
      format_alert (Json.obj fkvs) = Except.error (PyErr.keyError "properties")) := by
  refine ⟨rfl, rfl, rfl, rfl, rfl, ?_⟩
  intro fkvs h
  simp [format_alert, getItem, h]

/-- Witness for claim C10 at a feature with no properties entry. -/
theorem format_alert_null_not_fallback_witness :
    lookupKey [("id", Json.num 1)] "properties" = none ∧
    format_alert (Json.obj [("id", Json.num 1)]) =
      Except.error (PyErr.keyError "properties") :=
  ⟨rfl, format_alert_null_not_fallback.2.2.2.2.2 [("id", Json.num 1)] rfl⟩

/-- Claim C4: get_weather_alerts returns the literal string
"No alerts found or unable to fetch alerts" whenever the fetch fails (the
helper yields no result) or the fetched response is an object lacking a
features key, for every input state string. -/
theorem get_weather_alerts_fail_string :
    (∀ st, get_weather_alerts st none =
      Except.ok "No alerts found or unable to fetch alerts") ∧
    (∀ st kvs, lookupKey kvs "features" = none →
      get_weather_alerts st (some (Json.obj kvs)) =
        Except.ok "No alerts found or unable to fetch alerts") := by
  constructor
  · intro st; rfl
  · intro st kvs h
    cases kvs with
    | nil => rfl
    | cons kv rest => simp [get_weather_alerts, truthy, pyIn, h]

/-- Witness for claim C4 at a response object without a features key. -/
theorem get_weather_alerts_fail_string_witness :
    lookupKey [("type", Json.str "FeatureCollection")] "features" = none ∧
    get_weather_alerts "CA" (some (Json.obj [("type", Json.str "FeatureCollection")])) =
      Except.ok "No alerts found or unable to fetch alerts" :=
  ⟨rfl, get_weather_alerts_fail_string.2 "CA" [("type", Json.str "FeatureCollection")] rfl⟩

/-- Claim C9: for every successful fetch whose features entry is a
non-empty list whose features all format, get_weather_alerts returns the
per-feature formatted blocks joined with the separator, preserving the
order received. -/
theorem get_weather_alerts_joins_in_order (st : String) (kvs : List (String × Json))
    (feats : List Json) (alerts : List String)
    (h1 : lookupKey kvs "features" = some (Json.arr feats))
    (h2 : feats ≠ [])
    (h3 : mapME format_alert feats = Except.ok alerts) :
    get_weather_alerts st (some (Json.obj kvs)) =
      Except.ok (pyJoin "\n----\n" alerts) := by
  have htr := truthy_obj_of_lookup h1
  have htf : truthy (Json.arr feats) = true := by
    cases feats with
    | nil => exact absurd rfl h2
    | cons a as => rfl
  simp [get_weather_alerts, htr, pyIn, h1, getItem, htf, pyIter, h3]

/-- Witness for claim C9 with one concrete feature. -/
theorem get_weather_alerts_joins_in_order_witness :
    mapME format_alert [Json.obj [("properties", Json.obj [("event", Json.str "Gale")])]] =
      Except.ok [alertTemplate "Gale" "Unknown" "Unknown"
        "No description available" "No specific instructions provided"] ∧
    get_weather_alerts "CA"
        (some (Json.obj [("features",
          Json.arr [Json.obj [("properties", Json.obj [("event", Json.str "Gale")])]])])) =
      Except.ok (pyJoin "\n----\n" [alertTemplate "Gale" "Unknown" "Unknown"
        "No description available" "No specific instructions provided"]) :=
  ⟨rfl, get_weather_alerts_joins_in_order "CA" _ _ _ rfl (by simp) rfl⟩

/-- Claim C6: when the second response carries properties.periods as a list
of n periods and the first min(n,3) of them format, get_forecast returns
exactly those min(n,3) formatted periods joined with the separator: never
more than 3 however long the list, and fewer than 3 without error when the
list is shorter. -/
theorem get_forecast_takes_three (kvs pkvs fkvs fpkvs : List (String × Json)) (u : Json)
    (ps : List Json) (outs : List String)
    (h1 : lookupKey kvs "properties" = some (Json.obj pkvs))
    (h2 : lookupKey pkvs "forecast" = some u)
    (h3 : lookupKey fkvs "properties" = some (Json.obj fpkvs))
    (h4 : lookupKey fpkvs "periods" = some (Json.arr ps))
    (h5 : mapME format_period (ps.take 3) = Except.ok outs) :
    get_forecast (some (Json.obj kvs)) (some (Json.obj fkvs)) =
      (Except.ok (pyJoin "\n---\n" outs), true) ∧
    outs.length = min ps.length 3 := by
  constructor
  · have t1 := truthy_obj_of_lookup h1
    have t3 := truthy_obj_of_lookup h3
    simp [get_forecast, forecastFromSecond, t1, t3, pyIn, h1, h2, h3, h4,
      getItem, pySlice3, pyIter, h5]
  · rw [mapME_length h5, List.length_take, Nat.min_comm]

/-- Witness for claim C6 at an empty period list: zero periods are
formatted and no error is raised. -/
theorem get_forecast_takes_three_witness :
    mapME format_period (List.take 3 ([] : List Json)) = Except.ok [] ∧
    get_forecast (some (Json.obj [("properties", Json.obj [("forecast", Json.str "u")])]))
        (some (Json.obj [("properties", Json.obj [("periods", Json.arr [])])])) =
      (Except.ok (pyJoin "\n---\n" []), true) ∧
    ([] : List String).length = min ([] : List Json).length 3 := by
  have h := get_forecast_takes_three
    [("properties", Json.obj [("forecast", Json.str "u")])]
    [("forecast", Json.str "u")]
    [("properties", Json.obj [("periods", Json.arr [])])]
    [("periods", Json.arr [])]
    (Json.str "u") [] [] rfl rfl rfl rfl rfl
  exact ⟨rfl, h.1, h.2⟩

/-- Claim C1 (amended): get_forecast maps each of these cases to the fixed
fallback string, raising nothing: failed first fetch; falsy first response;
first-response object without a properties key; properties record without a
forecast key; failed second fetch; falsy (for example empty) second
response.  The original claim fails for a truthy second response missing an
expected field, which raises a KeyError instead of being caught: see the
counterexample. -/
theorem get_forecast_failsoft_cases :
    (∀ snd, get_forecast none snd = (Except.ok "Unable to fetch forecast data.", false)) ∧
    (∀ d snd, truthy d = false →
      get_forecast (some d) snd = (Except.ok "Unable to fetch forecast data.", false)) ∧
    (∀ kvs snd, lookupKey kvs "properties" = none →
      get_forecast (some (Json.obj kvs)) snd =
        (Except.ok "Unable to fetch forecast data.", false)) ∧
    (∀ kvs pkvs snd, lookupKey kvs "properties" = some (Json.obj pkvs) →
      lookupKey pkvs "forecast" = none →
      get_forecast (some (Json.obj kvs)) snd =
        (Except.ok "Unable to fetch forecast data.", false)) ∧
    (∀ kvs pkvs u, lookupKey kvs "properties" = some (Json.obj pkvs) →
      lookupKey pkvs "forecast" = some u →
      get_forecast (some (Json.obj kvs)) none =
        (Except.ok "Unable to fetch forecast data.", true)) ∧
    (∀ kvs pkvs u fd, lookupKey kvs "properties" = some (Json.obj pkvs) →
      lookupKey pkvs "forecast" = some u → truthy fd = false →
      get_forecast (some (Json.obj kvs)) (some fd) =
        (Except.ok "Unable to fetch forecast data.", true)) := by
  refine ⟨?_, ?_, ?_, ?_, ?_, ?_⟩
  · intro snd; rfl
  · intro d snd h; simp [get_forecast, h]
  · intro kvs snd h
    cases kvs with
    | nil => rfl
    | cons kv rest => simp [get_forecast, truthy, pyIn, h]
  · intro kvs pkvs snd h1 h2
    have t1 := truthy_obj_of_lookup h1
    simp [get_forecast, t1, pyIn, h1, h2, getItem]
  · intro kvs pkvs u h1 h2
    have t1 := truthy_obj_of_lookup h1
    simp [get_forecast, forecastFromSecond, t1, pyIn, h1, h2, getItem]
  · intro kvs pkvs u fd h1 h2 h3
    have t1 := truthy_obj_of_lookup h1
    simp [get_forecast, forecastFromSecond, t1, pyIn, h1, h2, h3, getItem]

/-- Witness for the amended claim C1: an empty (falsy) second response at a
good first response yields the fallback with the second fetch issued. -/
theorem get_forecast_failsoft_cases_witness :
    lookupKey [("properties", Json.obj [("forecast", Json.str "u")])] "properties" =
      some (Json.obj [("forecast", Json.str "u")]) ∧
    lookupKey [("forecast", Json.str "u")] "forecast" = some (Json.str "u") ∧
    truthy (Json.obj []) = false ∧
    get_forecast (some (Json.obj [("properties", Json.obj [("forecast", Json.str "u")])]))
        (some (Json.obj [])) = (Except.ok "Unable to fetch forecast data.", true) :=
  ⟨rfl, rfl, rfl, get_forecast_failsoft_cases.2.2.2.2.2 _ _ _ _ rfl rfl rfl⟩

/-- Counterexample to claim C1 as stated: a successful non-empty second
response missing the expected properties field makes get_forecast raise a
KeyError (after issuing the second fetch) instead of returning the
fallback string. -/
theorem get_forecast_second_missing_field_raises :
    get_forecast (some (Json.obj [("properties", Json.obj [("forecast", Json.str "u")])]))
        (some (Json.obj [("properties", Json.obj [])])) =
      (Except.error (PyErr.keyError "periods"), true) ∧
    (Except.error (PyErr.keyError "periods") : Except PyErr String) ≠
      Except.ok "Unable to fetch forecast data." :=
  ⟨rfl, by simp⟩

/-- Claim C3 (amended): get_weather_alerts returns the literal string
"No active weather alerts for the specified state." exactly when the fetch
succeeded with an object response carrying a features key whose value is
falsy: an empty feature list, but equally null, false, zero, an empty
string, or an empty object.  The original claim (empty feature sequence
only) fails at a features value of null: see the counterexample. -/
theorem get_weather_alerts_no_active_iff (st : String) (data : Option Json) :
    get_weather_alerts st data =
      Except.ok "No active weather alerts for the specified state." ↔
    ∃ kvs v, data = some (Json.obj kvs) ∧
      lookupKey kvs "features" = some v ∧ truthy v = false := by
  constructor
  · intro h
    cases data with
    | none =>
        exact absurd (Except.ok.inj h) (by decide)
    | some d =>
        simp only [get_weather_alerts] at h
        split at h
        · exact absurd (Except.ok.inj h) (by decide)
        · split at h
          · simp at h
          · exact absurd (Except.ok.inj h) (by decide)
          · split at h
            · simp at h
            · rename_i feats heqGet
              split at h
              · rename_i htf
                obtain ⟨kvs, rfl, hl⟩ := getItem_ok_shape heqGet
                exact ⟨kvs, feats, rfl, hl, htf⟩
              · rename_i htf
                split at h
                · simp at h
                · rename_i items heqIter
                  split at h
                  · simp at h
                  · rename_i alerts heqMap
                    have hbt : truthy feats = true := by
                      revert htf; cases truthy feats <;> simp
                    have hne : items ≠ [] := pyIter_ne_nil hbt heqIter
                    match items, hne with
                    | x :: xs, _ =>
                      obtain ⟨y, ys2, hfx, _, rfl⟩ := mapME_cons_ok heqMap
                      obtain ⟨r, rfl⟩ := format_alert_ok_shape hfx
                      obtain ⟨t, hj⟩ := pyJoin_cons "\n----\n" _ ys2
                      have hcontra := Except.ok.inj h
                      rw [hj, strAppend_assoc] at hcontra
                      exact absurd hcontra (nlEvent_append_ne_noActive _)
  · rintro ⟨kvs, v, rfl, hl, hv⟩
    simp [get_weather_alerts, truthy_obj_of_lookup hl, pyIn, hl, getItem, hv]

/-- Witness for the amended claim C3 at the empty feature list. -/
theorem get_weather_alerts_no_active_iff_witness :
    get_weather_alerts "CA" (some (Json.obj [("features", Json.arr [])])) =
      Except.ok "No active weather alerts for the specified state." :=
  (get_weather_alerts_no_active_iff "CA" _).mpr
    ⟨[("features", Json.arr [])], Json.arr [], rfl, rfl, rfl⟩

/-- Counterexample to claim C3 as stated: a successful fetch whose features
key is bound to null, which is not an empty feature sequence, still returns
the no-active-alerts string. -/
theorem get_weather_alerts_no_active_on_null_features :
    get_weather_alerts "CA" (some (Json.obj [("features", Json.null)])) =
      Except.ok "No active weather alerts for the specified state." ∧
    lookupKey [("features", Json.null)] "features" = some Json.null ∧
    Json.null ≠ Json.arr [] :=
  ⟨rfl, rfl, fun h => Json.noConfusion h⟩

/-- Claim C5 (amended): get_forecast issues its second fetch exactly when
the first fetch succeeds with an object response carrying a value at
properties.forecast, and in the benign other cases (failed first fetch,
falsy first response, object response without the properties.forecast path)
it returns the fixed fallback string with no second call.  The original
claim also promised the fallback string when a membership test itself
raises (a truthy non-object response, or a properties entry that is not a
container); there the error propagates instead, still with no second call:
see the counterexample. -/
theorem get_forecast_second_fetch_iff :
    (∀ first snd, (get_forecast first snd).snd = true ↔
      ∃ kvs pkvs u, first = some (Json.obj kvs) ∧
        lookupKey kvs "properties" = some (Json.obj pkvs) ∧
        lookupKey pkvs "forecast" = some u) ∧
    (∀ snd, get_forecast none snd = (Except.ok "Unable to fetch forecast data.", false)) ∧
    (∀ d snd, truthy d = false →
      get_forecast (some d) snd = (Except.ok "Unable to fetch forecast data.", false)) ∧
    (∀ kvs snd, lookupKey kvs "properties" = none →
      get_forecast (some (Json.obj kvs)) snd =
        (Except.ok "Unable to fetch forecast data.", false)) ∧
    (∀ kvs pkvs snd, lookupKey kvs "properties" = some (Json.obj pkvs) →
      lookupKey pkvs "forecast" = none →
      get_forecast (some (Json.obj kvs)) snd =
        (Except.ok "Unable to fetch forecast data.", false)) := by
  refine ⟨?_, ?_, ?_, ?_, ?_⟩
  · intro first snd
    constructor
    · intro h
      cases first with
      | none => simp [get_forecast] at h
      | some d =>
          simp only [get_forecast] at h
          split at h
          · simp at h
          · split at h
            · simp at h
            · simp at h
            · split at h
              · simp at h
              · rename_i props heq2
                split at h
                · simp at h
                · simp at h
                · split at h
                  · simp at h
                  · rename_i furl heq4
                    obtain ⟨kvs, rfl, hl1⟩ := getItem_ok_shape heq2
                    obtain ⟨pkvs, rfl, hl2⟩ := getItem_ok_shape heq4
                    exact ⟨kvs, pkvs, furl, rfl, hl1, hl2⟩
    · rintro ⟨kvs, pkvs, u, rfl, h1, h2⟩
      simp [get_forecast, truthy_obj_of_lookup h1, pyIn, h1, h2, getItem]
  · intro snd; rfl
  · intro d snd h; simp [get_forecast, h]
  · intro kvs snd h
    cases kvs with
    | nil => rfl
    | cons kv rest => simp [get_forecast, truthy, pyIn, h]
  · intro kvs pkvs snd h1 h2
    have t1 := truthy_obj_of_lookup h1
    simp [get_forecast, t1, pyIn, h1, h2, getItem]

/-- Witness for the amended claim C5: a first response carrying the
properties.forecast path makes the second fetch happen. -/
theorem get_forecast_second_fetch_iff_witness :
    (get_forecast (some (Json.obj [("properties", Json.obj [("forecast", Json.str "u")])]))
      none).snd = true :=
  (get_forecast_second_fetch_iff.1 _ none).mpr
    ⟨[("properties", Json.obj [("forecast", Json.str "u")])],
      [("forecast", Json.str "u")], Json.str "u", rfl, rfl, rfl⟩

/-- Counterexample to claim C5 as stated: a truthy first-response object
whose properties entry is a number makes the guard membership test raise a
TypeError, so get_forecast neither returns the fallback string nor issues
the second fetch. -/
theorem get_forecast_guard_raises_no_fallback :
    get_forecast (some (Json.obj [("properties", Json.num 5)])) none =
      (Except.error PyErr.typeError, false) ∧
    (Except.error PyErr.typeError : Except PyErr String) ≠
      Except.ok "Unable to fetch forecast data." :=
  ⟨rfl, by simp⟩
